import Mathlib

/-!
Verification of the rda-lock-client library: a shallow embedding of the
Lock class (Lock.mjs) and the LockClient factory (LockClient.mjs),
together with theorems settling the specification claims.

The embedding follows the JavaScript source closely:
- JavaScript values that flow through truthiness checks are modelled by
  the `JSValue` type with an explicit `truthy` predicate.
- The mutable Lock instance is the record `LockState`; methods become
  functions `LockState → ... → LockState × Option String × List Action`,
  where the `Option String` is the thrown error (if any) and
  `List Action` is the trace of externally visible effects (network
  requests and timer operations) the method performed.
- Remote request outcomes and clock readings are supplied by oracles
  (`TryOutcome`, `IterEnv`, boolean success flags), since the network
  and the clock are external collaborators.
-/

namespace RdaLockClient

/-- A JavaScript value as far as this library inspects values:
strings, numbers, booleans, null and undefined. -/
inductive JSValue where
  | str (s : String)
  | num (n : Int)
  | boolean (b : Bool)
  | null
  | undef
  deriving Repr, DecidableEq

/-- JavaScript truthiness of a `JSValue`. -/
def truthy : JSValue → Bool
  | .str s => !s.isEmpty
  | .num n => n != 0
  | .boolean b => b
  | .null => false
  | .undef => false

/-- The test `typeof v === 'string'`. -/
def isJsString : JSValue → Bool
  | .str _ => true
  | _ => false

/-- Externally visible effects performed by Lock methods: timer
operations and the four remote requests of the wire protocol. -/
inductive Action where
  /-- `registryClient.resolve('rda-lock')` -/
  | resolveHost
  /-- `POST .../rda-lock.lock` with body `identifier, ttl` -/
  | postLock (resourceId : Option String) (ttl : Nat)
  /-- `PATCH .../rda-lock.lock/lockId` (renewal) -/
  | renewLock (lockId : Option JSValue)
  /-- `DELETE .../rda-lock.lock/lockId` -/
  | deleteLock (lockId : Option JSValue)
  /-- an interruptible delay of `ms` milliseconds (`Delay.wait`) -/
  | waitMs (ms : ℚ)
  /-- cancelling a pending delay (`Delay.cancel`) -/
  | cancelDelay
  /-- fire-and-forget start of the keep-alive activity from `lock()` -/
  | spawnKeepAlive
  deriving Repr, DecidableEq

/-- Is the action a remote network request? -/
def isRemoteRequest : Action → Bool
  | .resolveHost => true
  | .postLock _ _ => true
  | .renewLock _ => true
  | .deleteLock _ => true
  | _ => false

/-- Is the action the remote delete request? -/
def isRemoteDelete : Action → Bool
  | .deleteLock _ => true
  | _ => false

/-- `lockStatusMap` from Lock.mjs: status names with their rank codes,
in source order. -/
def lockStatusMap : List (String × Nat) :=
  [("initialized", 100),
   ("acquiring", 200),
   ("acquired", 300),
   ("freeing", 400),
   ("freed", 500),
   ("canceled", 850),
   ("timeout", 900),
   ("failed", 999)]

/-- The mutable fields of a Lock instance (Lock.mjs constructor).
`none` models a field still `undefined`.  `tryLockTimeout` and
`keepAliveTimeout` record whether the corresponding `Delay` object has
been created. -/
structure LockState where
  currentStatusName : Option String
  currentStatus : Option Nat
  lockId : Option JSValue
  resourceId : Option String
  ttl : Nat
  timeout : Nat
  doKeepAlive : Bool
  lockCallCount : Nat
  backOffFactor : ℚ
  backOffUpperBound : Nat
  tryLockTimeout : Bool
  keepAliveTimeout : Bool
  deriving Repr, DecidableEq

/-- The body of `setStatus` for a status name present in the map:
reject any new code that is not strictly greater than the current one
(`if (this.currentStatus && this.currentStatus >= status) throw`),
otherwise assign both fields.  The returned `Option String` is the
thrown error, the returned state reflects all mutations performed. -/
def setStatusValidName (s : LockState) (statusName : String) (status : Nat) :
    LockState × Option String :=
  match s.currentStatus with
  | some c =>
      if status ≤ c then
        (s, some "Cannot set status: the current status is lower or equal to the status to be set!")
      else
        ({ s with currentStatus := some status, currentStatusName := some statusName }, none)
  | none =>
      ({ s with currentStatus := some status, currentStatusName := some statusName }, none)

/-- `Lock.setStatus` (Lock.mjs lines 318-333).  For an unrecognized
status name the source first calls `this.setStatus('failed')` and then
throws; since `'failed'` is in the map with code 999 that recursive
call is exactly `setStatusValidName s "failed" 999`, and if it throws
its own error propagates instead of the invalid-name error. -/
def setStatus (s : LockState) (statusName : String) : LockState × Option String :=
  match lockStatusMap.lookup statusName with
  | some status => setStatusValidName s statusName status
  | none =>
      match setStatusValidName s "failed" 999 with
      | (s1, some msg) => (s1, some msg)
      | (s1, none) => (s1, some "Cannot set status: the status is invalid!")

/-- Option object accepted by the Lock constructor (its destructured
parameter, with the source defaults;  `registryClient` is modelled as a
boolean presence flag). -/
structure LockOptions where
  keepAlive : Bool := true
  lockId : JSValue := .undef
  resourceId : JSValue := .undef
  timeout : Nat := 60
  ttl : Nat := 30

/-- The Lock constructor (Lock.mjs lines 46-97).  Returns the
constructed state or the construction error. -/
def lockConstructor (registryClient : Bool) (o : LockOptions) :
    Except String LockState :=
  if !registryClient then
    .error "Please provide a registryClient instance!"
  else
    let base : LockState :=
      { currentStatusName := none
        currentStatus := none
        lockId := none
        resourceId := none
        ttl := o.ttl
        timeout := o.timeout
        doKeepAlive := o.keepAlive
        lockCallCount := 0
        backOffFactor := 13 / 10
        backOffUpperBound := 15
        tryLockTimeout := false
        keepAliveTimeout := false }
    if truthy o.lockId then
      -- lock adoption: assume it was acquired already
      .ok { base with
              lockId := some o.lockId
              currentStatusName := some "acquired"
              currentStatus := lockStatusMap.lookup "acquired" }
    else
      match o.resourceId with
      | .str rid =>
          match setStatus { base with resourceId := some rid } "initialized" with
          | (s1, none) => .ok s1
          | (_, some msg) => .error msg
      | _ => .error "Please provide a resourceId string!"

/-- Option object of the two factory methods, with the destructuring
defaults of LockClient.mjs. -/
structure ClientOptions where
  ttl : Nat := 30
  timeout : Nat := 60
  keepAlive : Bool := true

/-- The factory default options (the `= {}` parameter default). -/
def clientDefaults : ClientOptions := {}

/-- `LockClient.createLock` (LockClient.mjs lines 49-61): passes the
resource id and the defaulted options to the Lock constructor, always
supplying the factory's registry client. -/
def createLock (resourceId : JSValue) (opts : ClientOptions) :
    Except String LockState :=
  lockConstructor true
    { keepAlive := opts.keepAlive
      resourceId := resourceId
      timeout := opts.timeout
      ttl := opts.ttl }

/-- `LockClient.adoptLock` (LockClient.mjs lines 81-93): passes the
lock id and the defaulted options to the Lock constructor; no
`resourceId` is passed. -/
def adoptLock (lockId : JSValue) (opts : ClientOptions) :
    Except String LockState :=
  lockConstructor true
    { keepAlive := opts.keepAlive
      lockId := lockId
      timeout := opts.timeout
      ttl := opts.ttl }

/-- The state of a freshly created lock for resource `rid` with default
options, as produced by `createLock`. -/
def freshState (rid : String) : LockState :=
  { currentStatusName := some "initialized"
    currentStatus := some 100
    lockId := none
    resourceId := some rid
    ttl := 30
    timeout := 60
    doKeepAlive := true
    lockCallCount := 0
    backOffFactor := 13 / 10
    backOffUpperBound := 15
    tryLockTimeout := false
    keepAliveTimeout := false }

/-- Sanity: `createLock` with a defaulted option set yields exactly
`freshState`. -/
theorem createLock_freshState (rid : String) :
    createLock (JSValue.str rid) clientDefaults = .ok (freshState rid) := rfl

/-- `Lock.free(ignoreStatus)` (Lock.mjs lines 215-237).  `deleteOk` is
the oracle for the outcome of the remote DELETE request.  Returns the
final state, the thrown error (if any) and the trace of effects. -/
def free (s : LockState) (ignoreStatus : Bool) (deleteOk : Bool) :
    LockState × Option String × List Action :=
  if ignoreStatus = false ∧ s.currentStatusName ≠ some "acquired" then
    (s, some "Cannot free lock: invalid status", [])
  else
    -- cancel the keep alive process (the field itself is not cleared)
    let acts0 : List Action := if s.keepAliveTimeout then [.cancelDelay] else []
    match setStatus s "freeing" with
    | (s1, some msg) => (s1, some msg, acts0)
    | (s1, none) =>
        let acts := acts0 ++ [.resolveHost, .deleteLock s1.lockId]
        if deleteOk then
          match setStatus s1 "freed" with
          | (s2, e2) => (s2, e2, acts)
        else
          match setStatus s1 "failed" with
          | (s2, _) => (s2, some "delete request failed", acts)

/-- `Lock.cancel` (Lock.mjs lines 193-202): free when acquired (an
error thrown by `free` propagates and skips the rest), then cancel a
pending `tryLockTimeout` delay if one was ever created. -/
def cancel (s : LockState) (deleteOk : Bool) :
    LockState × Option String × List Action :=
  if s.currentStatusName = some "acquired" then
    match free s false deleteOk with
    | (s1, some msg, acts1) => (s1, some msg, acts1)
    | (s1, none, acts1) =>
        if s1.tryLockTimeout then (s1, none, acts1 ++ [.cancelDelay])
        else (s1, none, acts1)
  else
    if s.tryLockTimeout then (s, none, [.cancelDelay])
    else (s, none, [])

/-- `Lock.keepAlive` (Lock.mjs lines 252-266): create a delay, wait
`Math.round(this.ttl * 0.66 * 1000)` milliseconds (`= ttl * 660` for a
whole-second TTL), resolve the host, send one PATCH renewal.  On a
failed renewal (`renewOk = false`) set the status to `failed` and
rethrow; otherwise return.  The source contains no loop or recursion:
the method body ends after this single renewal. -/
def keepAlive (s : LockState) (renewOk : Bool) :
    LockState × Option String × List Action :=
  let timeoutTime : Nat := s.ttl * 660
  let s1 := { s with keepAliveTimeout := true }
  let acts : List Action := [.waitMs (timeoutTime : ℚ), .resolveHost, .renewLock s1.lockId]
  if renewOk then (s1, none, acts)
  else
    match setStatus s1 "failed" with
    | (s2, _) => (s2, some "renew request failed", acts)

/-- Outcome of one remote POST acquisition request: a `201` with body
field `id` carrying `v`, or a `409` conflict.  A `201` whose `id` is
falsy models `!data || !data.id`. -/
inductive TryOutcome where
  | granted (v : JSValue)
  | conflict
  deriving Repr, DecidableEq

/-- `Lock.tryToLock` (Lock.mjs lines 281-303): resolve the host, POST
the resource id and TTL; on `201` return `data.id` after checking it is
truthy (otherwise throw the insufficient-data error); on `409` return
`undefined` (`none`). -/
def tryToLock (s : LockState) (o : TryOutcome) :
    Option JSValue × Option String × List Action :=
  let acts : List Action := [.resolveHost, .postLock s.resourceId s.ttl]
  match o with
  | .granted v =>
      if truthy v then (some v, none, acts)
      else (none, some "Error while locking resource! Lock service returned insufficient data!", acts)
  | .conflict => (none, none, acts)

/-- The environment of one iteration of the acquisition loop: the
`Date.now()` reading at the `while` condition, the outcome of the POST
request, and the outcome of the remote DELETE in case this iteration
takes the free-after-cancel branch. -/
structure IterEnv where
  now : Nat
  outcome : TryOutcome
  deleteOk : Bool
  deriving Repr, DecidableEq

/-- The `while` loop of `Lock.lock` (Lock.mjs lines 148-169).
`lockStart` is the `Date.now()` recorded before the loop.  Each
`IterEnv` feeds one evaluation of the loop condition; an exhausted
environment list behaves like a deadline that has passed.  On a truthy
lock id: if the current status has moved past `acquired` (code 300),
`await this.free(true)` and break (an error from `free` propagates);
otherwise set status `acquired`, record the lock id and break.  On a
conflict: compute the backoff wait
`(backOffFactor ^ min(backOffUpperBound, lockCallCount)) * 1000`,
create the `tryLockTimeout` delay, wait, and iterate. -/
def lockLoop (lockStart : Nat) :
    LockState → List IterEnv → LockState × Option String × List Action
  | s, [] => (s, none, [])
  | s, e :: rest =>
      if lockStart + s.timeout * 1000 > e.now then
        match tryToLock s e.outcome with
        | (_, some msg, acts) => (s, some msg, acts)
        | (some v, none, acts) =>
            if 300 < s.currentStatus.getD 0 then
              match free s true e.deleteOk with
              | (s1, e1, acts1) => (s1, e1, acts ++ acts1)
            else
              match setStatus s "acquired" with
              | (s1, some msg) => (s1, some msg, acts)
              | (s1, none) => ({ s1 with lockId := some v }, none, acts)
        | (none, none, acts) =>
            let iterationCount := min s.backOffUpperBound s.lockCallCount
            let waitTime : ℚ := s.backOffFactor ^ iterationCount * 1000
            let s1 := { s with tryLockTimeout := true }
            match lockLoop lockStart s1 rest with
            | (s2, e2, acts2) => (s2, e2, acts ++ .waitMs waitTime :: acts2)
      else (s, none, [])

/-- `Lock.lock` (Lock.mjs lines 137-182): set status `acquiring` (this
throws if the current status is not viable, before any network
request), run the acquisition loop, then either start the keep-alive
activity (fire and forget, when `doKeepAlive`) if the status is
`acquired`, or set status `timeout` and throw the timeout error. -/
def lock (s : LockState) (lockStart : Nat) (envs : List IterEnv) :
    LockState × Option String × List Action :=
  match setStatus s "acquiring" with
  | (s0, some msg) => (s0, some msg, [])
  | (s0, none) =>
      match lockLoop lockStart s0 envs with
      | (s1, some msg, acts1) => (s1, some msg, acts1)
      | (s1, none, acts1) =>
          if s1.currentStatusName = some "acquired" then
            if s1.doKeepAlive then (s1, none, acts1 ++ [.spawnKeepAlive])
            else (s1, none, acts1)
          else
            match setStatus s1 "timeout" with
            | (s2, some msg) => (s2, some msg, acts1)
            | (s2, none) =>
                (s2, some "Failed to acquire lock, the timeout was encountered!", acts1)

/-- The adopted-lock state produced by `adoptLock` of lock id `5` with
default options. -/
def adoptedState : LockState :=
  { currentStatusName := some "acquired"
    currentStatus := some 300
    lockId := some (JSValue.num 5)
    resourceId := none
    ttl := 30
    timeout := 60
    doKeepAlive := true
    lockCallCount := 0
    backOffFactor := 13 / 10
    backOffUpperBound := 15
    tryLockTimeout := false
    keepAliveTimeout := false }

/-- Sanity: `adoptLock` of a truthy lock id yields `adoptedState`. -/
theorem adoptLock_adoptedState :
    adoptLock (JSValue.num 5) clientDefaults = .ok adoptedState := rfl

/-- Any status name of the map other than `initialized` has a rank code
of at least 200 (the code of `acquiring`). -/
theorem statusCode_ge_of_ne (n : String) (c : Nat)
    (h : lockStatusMap.lookup n = some c) (hne : n ≠ "initialized") :
    200 ≤ c := by
  simp only [lockStatusMap, List.lookup] at h
  repeat' split at h
  all_goals simp_all
  all_goals omega

/-- Characterization of `setStatus` for a recognized status name when
the current status is set. -/
theorem setStatus_some_eq (s : LockState) (n : String) (code : Nat) (c : Nat)
    (hl : lockStatusMap.lookup n = some code) (hc : s.currentStatus = some c) :
    setStatus s n =
      if code ≤ c then
        (s, some "Cannot set status: the current status is lower or equal to the status to be set!")
      else
        ({ s with currentStatus := some code, currentStatusName := some n }, none) := by
  unfold setStatus setStatusValidName
  rw [hl, hc]

/-- Characterization of `setStatus` for an unrecognized status name
when the current status is set: the source first performs the recursive
`setStatus` of `failed` and then throws. -/
theorem setStatus_none_eq (s : LockState) (n : String) (c : Nat)
    (hl : lockStatusMap.lookup n = none) (hc : s.currentStatus = some c) :
    setStatus s n =
      if 999 ≤ c then
        (s, some "Cannot set status: the current status is lower or equal to the status to be set!")
      else
        ({ s with currentStatus := some 999, currentStatusName := some "failed" },
         some "Cannot set status: the status is invalid!") := by
  unfold setStatus setStatusValidName
  rw [hl, hc]
  by_cases hcc : 999 ≤ c <;> simp [hcc]

/-- The rank codes of the status map, in source order, form a strictly
increasing chain. -/
theorem lockStatusMap_codes_sorted :
    List.Chain' (· < ·) (lockStatusMap.map Prod.snd) := by
  simp only [show lockStatusMap.map Prod.snd =
      [100, 200, 300, 400, 500, 850, 900, 999] from rfl,
    List.chain'_cons, List.chain'_singleton, and_true]
  omega

/-- Claim C1: the rank codes of the status map are strictly increasing
along the order initialized, acquiring, acquired, freeing, freed,
canceled, timeout, failed, and every successful `setStatus` call on a
handle whose status field is set moves the status to a strictly greater
rank: the status never regresses and never stays at an equal rank
across a successful transition. -/
theorem c1_status_strictly_advances (s : LockState) (c : Nat) (n : String)
    (hc : s.currentStatus = some c) (hok : (setStatus s n).2 = none) :
    List.Chain' (· < ·) (lockStatusMap.map Prod.snd) ∧
    ∃ c', (setStatus s n).1.currentStatus = some c' ∧ c < c' := by
  refine ⟨lockStatusMap_codes_sorted, ?_⟩
  cases hl : lockStatusMap.lookup n with
  | some code =>
      rw [setStatus_some_eq s n code c hl hc] at hok ⊢
      by_cases hcc : code ≤ c
      · rw [if_pos hcc] at hok
        simp at hok
      · rw [if_neg hcc]
        exact ⟨code, rfl, Nat.lt_of_not_le hcc⟩
  | none =>
      rw [setStatus_none_eq s n c hl hc] at hok
      by_cases hcc : 999 ≤ c
      · rw [if_pos hcc] at hok
        simp at hok
      · rw [if_neg hcc] at hok
        simp at hok

/-- Witness for C1 at a concrete input: a fresh handle in
`initialized` (rank 100) successfully moves to `acquiring`, a strictly
greater rank. -/
theorem c1_status_strictly_advances_witness :
    (freshState "res").currentStatus = some 100 ∧
    (setStatus (freshState "res") "acquiring").2 = none ∧
    (List.Chain' (· < ·) (lockStatusMap.map Prod.snd) ∧
      ∃ c', (setStatus (freshState "res") "acquiring").1.currentStatus = some c' ∧
        100 < c') :=
  ⟨rfl, rfl, c1_status_strictly_advances (freshState "res") 100 "acquiring" rfl rfl⟩

/-- Claim C5 counterexample: setting an unrecognized status name from
`initialized` fails, but the status does not stay unchanged — the
source first sets the status to `failed` and only then throws. -/
theorem c5_unrecognized_name_mutates_status :
    (setStatus (freshState "res") "bogus").2.isSome = true ∧
    (freshState "res").currentStatusName = some "initialized" ∧
    (setStatus (freshState "res") "bogus").1.currentStatusName = some "failed" := by
  refine ⟨rfl, rfl, rfl⟩

/-- Claim C5 as amended: an attempt to set a recognized status of
lower or equal rank fails and leaves the state unchanged; an attempt to
set an unrecognized status name fails, but first advances the status to
`failed` when the current rank is below 999, and leaves the state
unchanged only when the handle is already at rank 999 (`failed`). -/
theorem c5_amended_invalid_transitions (s : LockState) (c : Nat) (n : String)
    (hc : s.currentStatus = some c) :
    (∀ code, lockStatusMap.lookup n = some code → code ≤ c →
        (setStatus s n).2.isSome = true ∧ (setStatus s n).1 = s) ∧
    (lockStatusMap.lookup n = none →
        (setStatus s n).2.isSome = true ∧
        ((c < 999 ∧ (setStatus s n).1 =
            { s with currentStatus := some 999, currentStatusName := some "failed" }) ∨
         (999 ≤ c ∧ (setStatus s n).1 = s))) := by
  constructor
  · intro code hl hle
    rw [setStatus_some_eq s n code c hl hc, if_pos hle]
    exact ⟨rfl, rfl⟩
  · intro hl
    rw [setStatus_none_eq s n c hl hc]
    by_cases hcc : 999 ≤ c
    · rw [if_pos hcc]
      exact ⟨rfl, Or.inr ⟨hcc, rfl⟩⟩
    · rw [if_neg hcc]
      exact ⟨rfl, Or.inl ⟨Nat.lt_of_not_le hcc, rfl⟩⟩

/-- Witness for the amended C5 at concrete inputs: from `initialized`
(rank 100), re-setting `initialized` fails with the state unchanged,
and setting the unrecognized name `bogus` fails after advancing the
status to `failed`. -/
theorem c5_amended_witness :
    ((setStatus (freshState "res") "initialized").2.isSome = true ∧
      (setStatus (freshState "res") "initialized").1 = freshState "res") ∧
    ((setStatus (freshState "res") "bogus").2.isSome = true ∧
      ((100 < 999 ∧ (setStatus (freshState "res") "bogus").1 =
          { freshState "res" with
              currentStatus := some 999, currentStatusName := some "failed" }) ∨
       (999 ≤ 100 ∧ (setStatus (freshState "res") "bogus").1 = freshState "res"))) :=
  ⟨(c5_amended_invalid_transitions (freshState "res") 100 "initialized" rfl).1
      100 rfl (by omega),
   (c5_amended_invalid_transitions (freshState "res") 100 "bogus" rfl).2 rfl⟩

/-- Claim C9 counterexample: `createLock` of the empty string does not
reject it — it returns a fresh handle in `initialized` whose
`resourceId` is the empty string, because the constructor only checks
`typeof resourceId` and the empty string is a string. -/
theorem c9_empty_string_accepted :
    createLock (JSValue.str "") clientDefaults = .ok (freshState "") ∧
    (freshState "").currentStatusName = some "initialized" :=
  ⟨rfl, rfl⟩

/-- Claim C9 as amended: `createLock` validates only that `resourceId`
is a string (rejecting every non-string value, but accepting the empty
string); with the options omitted it applies the defaults ttl = 30,
timeout = 60, keepAlive = true, and returns a fresh handle in
`initialized`. -/
theorem c9_amended_createLock (v : JSValue) :
    (isJsString v = false →
      createLock v clientDefaults = .error "Please provide a resourceId string!") ∧
    (∀ r : String, v = .str r →
      createLock v clientDefaults = .ok (freshState r)) := by
  constructor
  · intro h
    cases v with
    | str s => simp [isJsString] at h
    | num n => rfl
    | boolean b => cases b <;> rfl
    | null => rfl
    | undef => rfl
  · intro r hr
    subst hr
    exact createLock_freshState r

/-- Witness for the amended C9 at concrete inputs: `null` is rejected
with the construction error, and the string "r" yields a fresh
initialized handle carrying the defaults. -/
theorem c9_amended_witness :
    isJsString JSValue.null = false ∧
    createLock JSValue.null clientDefaults =
      .error "Please provide a resourceId string!" ∧
    createLock (JSValue.str "r") clientDefaults = .ok (freshState "r") ∧
    (freshState "r").ttl = 30 ∧ (freshState "r").timeout = 60 ∧
    (freshState "r").doKeepAlive = true ∧
    (freshState "r").currentStatusName = some "initialized" :=
  ⟨rfl, (c9_amended_createLock JSValue.null).1 rfl,
   (c9_amended_createLock (JSValue.str "r")).2 "r" rfl, rfl, rfl, rfl, rfl⟩

/-- Claim C10: for every falsy lock identifier, `adoptLock` does not
produce an acquired handle — the constructor takes the fresh-lock
branch (adoption is selected by truthiness of the id) and throws the
construction error demanding a resourceId string, since `adoptLock`
passes no resourceId. -/
theorem c10_adopt_falsy_lockId (v : JSValue) (h : truthy v = false) :
    adoptLock v clientDefaults = .error "Please provide a resourceId string!" := by
  unfold adoptLock lockConstructor
  simp [h]

/-- Witness for C10 at a concrete input: adopting the lock id `0`
(falsy) throws the resourceId construction error. -/
theorem c10_adopt_falsy_lockId_witness :
    truthy (JSValue.num 0) = false ∧
    adoptLock (JSValue.num 0) clientDefaults =
      .error "Please provide a resourceId string!" :=
  ⟨rfl, c10_adopt_falsy_lockId (JSValue.num 0) rfl⟩

/-- Claim C6: calling `lock()` on a handle whose status is anything
other than `initialized` (a second `lock()` call, an adopted handle,
any later state) fails with the invalid-state error thrown by the
`acquiring` transition, before any network request is issued (the
effect trace is empty), and leaves the handle state unchanged. -/
theorem c6_lock_requires_initialized (s : LockState) (n : String) (c : Nat)
    (t : Nat) (envs : List IterEnv)
    (_hn : s.currentStatusName = some n)
    (hc : s.currentStatus = some c)
    (hl : lockStatusMap.lookup n = some c)
    (hne : n ≠ "initialized") :
    (lock s t envs).2.1.isSome = true ∧
    (lock s t envs).1 = s ∧
    (lock s t envs).2.2 = [] := by
  have h200 : 200 ≤ c := statusCode_ge_of_ne n c hl hne
  have hacq : lockStatusMap.lookup "acquiring" = some 200 := rfl
  unfold lock
  rw [setStatus_some_eq s "acquiring" 200 c hacq hc, if_pos h200]
  exact ⟨rfl, rfl, rfl⟩

/-- Witness for C6 at a concrete input: `lock()` on an adopted handle
(status `acquired`) fails, changes nothing and issues no request. -/
theorem c6_lock_requires_initialized_witness :
    adoptedState.currentStatusName = some "acquired" ∧
    ((lock adoptedState 0 []).2.1.isSome = true ∧
     (lock adoptedState 0 []).1 = adoptedState ∧
     (lock adoptedState 0 []).2.2 = []) :=
  ⟨rfl, c6_lock_requires_initialized adoptedState "acquired" 300 0 [] rfl rfl rfl
    (by decide)⟩

/-- Claim C7: `free()` (without `ignoreStatus`) from any status other
than `acquired` fails and changes nothing; from `acquired` it always
completes in `freed` (successful remote delete, no error) or `failed`
(failed remote delete, error re-raised), and never comes to rest in
the intermediate `freeing` status. -/
theorem c7_free_contract (s : LockState) (d : Bool) :
    (s.currentStatusName ≠ some "acquired" →
      free s false d = (s, some "Cannot free lock: invalid status", [])) ∧
    (s.currentStatusName = some "acquired" → s.currentStatus = some 300 →
      (free s false d).1.currentStatusName =
        some (if d then "freed" else "failed") ∧
      ((free s false d).2.1 = none ↔ d = true) ∧
      (free s false d).1.currentStatusName ≠ some "freeing") := by
  constructor
  · intro hn
    unfold free
    rw [if_pos ⟨rfl, hn⟩]
  · intro hn hc
    have hguard : ¬(false = false ∧ s.currentStatusName ≠ some "acquired") := by
      simp [hn]
    have hfr : lockStatusMap.lookup "freeing" = some 400 := rfl
    unfold free
    rw [if_neg hguard, setStatus_some_eq s "freeing" 400 300 hfr hc,
      if_neg (by omega : ¬(400 ≤ 300))]
    cases d with
    | true =>
        dsimp only
        rw [setStatus_some_eq _ "freed" 500 400 rfl rfl,
          if_neg (by omega : ¬(500 ≤ 400))]
        refine ⟨rfl, by simp, by simp⟩
    | false =>
        dsimp only
        rw [setStatus_some_eq _ "failed" 999 400 rfl rfl,
          if_neg (by omega : ¬(999 ≤ 400))]
        refine ⟨rfl, by simp, by simp⟩

/-- Witness for C7 at concrete inputs: on the adopted (acquired)
handle, a successful delete ends in `freed` with no error, and a
`free()` on a fresh (initialized) handle fails unchanged. -/
theorem c7_free_contract_witness :
    ((free adoptedState false true).1.currentStatusName =
        some (if true then "freed" else "failed") ∧
     ((free adoptedState false true).2.1 = none ↔ true = true) ∧
     (free adoptedState false true).1.currentStatusName ≠ some "freeing") ∧
    free (freshState "w") false true =
      (freshState "w", some "Cannot free lock: invalid status", []) :=
  ⟨(c7_free_contract adoptedState true).2 rfl rfl,
   (c7_free_contract (freshState "w") true).1 (by decide)⟩

/-- Claim C8: `cancel()` delegates to `free()` when the status is
`acquired` (same resulting state and same error); from every other
status it performs no status transition of its own — the state is
returned unchanged, no error is thrown, and the effect trace contains
no remote request (at most the cancellation of a pending backoff
delay). -/
theorem c8_cancel_frame (s : LockState) (d : Bool) :
    (s.currentStatusName ≠ some "acquired" →
      (cancel s d).1 = s ∧ (cancel s d).2.1 = none ∧
      (cancel s d).2.2.filter isRemoteRequest = []) ∧
    (s.currentStatusName = some "acquired" →
      (cancel s d).1 = (free s false d).1 ∧
      (cancel s d).2.1 = (free s false d).2.1) := by
  constructor
  · intro hn
    unfold cancel
    rw [if_neg hn]
    cases htl : s.tryLockTimeout <;> simp [isRemoteRequest]
  · intro hn
    unfold cancel
    rw [if_pos hn]
    rcases hfr : free s false d with ⟨s1, e1, acts1⟩
    cases e1 with
    | some msg => simp
    | none => cases htl : s1.tryLockTimeout <;> simp [htl]

/-- Witness for C8 at a concrete input: on a fresh (initialized)
handle, `cancel()` changes nothing, throws nothing and issues no
remote request. -/
theorem c8_cancel_frame_witness :
    (freshState "w").currentStatusName ≠ some "acquired" ∧
    ((cancel (freshState "w") false).1 = freshState "w" ∧
     (cancel (freshState "w") false).2.1 = none ∧
     (cancel (freshState "w") false).2.2.filter isRemoteRequest = []) :=
  ⟨by decide, (c8_cancel_frame (freshState "w") false).1 (by decide)⟩

/-- Claim C2 (code defect): the keep-alive activity of the source
performs exactly one sleep of `round(ttl * 0.66 * 1000)` milliseconds
followed by exactly one renew request and then returns — its complete
effect trace is wait, resolve, renew, for a successful renewal just as
for a failed one, and a successful renewal ends the activity without
error instead of repeating the cycle. -/
theorem c2_keepAlive_renews_exactly_once (s : LockState) (renewOk : Bool) :
    (keepAlive s renewOk).2.2 =
      [Action.waitMs ((s.ttl * 660 : Nat) : ℚ), Action.resolveHost,
       Action.renewLock s.lockId] ∧
    (keepAlive s true).2.1 = none := by
  cases renewOk with
  | true => exact ⟨rfl, rfl⟩
  | false =>
      refine ⟨?_, rfl⟩
      unfold keepAlive
      dsimp only
      rcases setStatus { s with keepAliveTimeout := true } "failed" with ⟨s2, e2⟩
      rfl

/-- A sample loop environment of two conflict responses arriving well
inside the deadline. -/
def demoConflicts : List IterEnv :=
  [⟨0, .conflict, true⟩, ⟨1, .conflict, true⟩]

/-- Claim C3 (code defect): `lockCallCount` is never incremented by the
source, so across any run of the acquisition loop in which every
response is a conflict, the counter stays 0 and every backoff wait is
`backOffFactor ^ min(backOffUpperBound, 0) * 1000 = 1000` milliseconds
(one second) — the waits never grow. -/
theorem c3_backoff_never_grows (t : Nat) (envs : List IterEnv) :
    ∀ s : LockState, s.lockCallCount = 0 → s.backOffFactor = 13 / 10 →
    (∀ e ∈ envs, e.outcome = TryOutcome.conflict) →
    (lockLoop t s envs).1.lockCallCount = 0 ∧
    ∀ q : ℚ, Action.waitMs q ∈ (lockLoop t s envs).2.2 → q = 1000 := by
  induction envs with
  | nil =>
      intro s h1 _ _
      unfold lockLoop
      simp [h1]
  | cons e rest ih =>
      intro s h1 h2 hall
      have he : e.outcome = TryOutcome.conflict := hall e (by simp)
      have hrest : ∀ x ∈ rest, x.outcome = TryOutcome.conflict := by
        intro x hx
        exact hall x (by simp [hx])
      unfold lockLoop
      by_cases hdl : t + s.timeout * 1000 > e.now
      · rw [if_pos hdl]
        unfold tryToLock
        rw [he]
        dsimp only
        have hwt : s.backOffFactor ^ (min s.backOffUpperBound s.lockCallCount)
            * 1000 = (1000 : ℚ) := by
          rw [h1, h2, Nat.min_zero]
          norm_num
        have ihr := ih { s with tryLockTimeout := true } h1 h2 hrest
        rcases hrec : lockLoop t { s with tryLockTimeout := true } rest
          with ⟨s2, e2, acts2⟩
        rw [hrec] at ihr
        refine ⟨ihr.1, ?_⟩
        intro q hq
        simp only [List.mem_append, List.mem_cons, List.not_mem_nil,
          or_false] at hq
        rcases hq with (h | h) | h | h
        · simp at h
        · simp at h
        · injection h with h'
          exact h'.trans hwt
        · exact ihr.2 q h
      · rw [if_neg hdl]
        exact ⟨h1, by simp⟩

/-- Witness for C3 at a concrete input: a fresh handle meeting two
consecutive conflicts keeps `lockCallCount` at 0. -/
theorem c3_backoff_never_grows_witness :
    (freshState "res").lockCallCount = 0 ∧
    (freshState "res").backOffFactor = 13 / 10 ∧
    (lockLoop 0 (freshState "res") demoConflicts).1.lockCallCount = 0 :=
  ⟨rfl, rfl,
   (c3_backoff_never_grows 0 demoConflicts (freshState "res") rfl rfl
     (by decide)).1⟩

/-- A handle whose status moved past `acquired` (to `freed`, rank 500)
while an acquisition request was in flight. -/
def staleState : LockState :=
  { currentStatusName := some "freed"
    currentStatus := some 500
    lockId := some (JSValue.num 5)
    resourceId := none
    ttl := 30
    timeout := 60
    doKeepAlive := true
    lockCallCount := 0
    backOffFactor := 13 / 10
    backOffUpperBound := 15
    tryLockTimeout := false
    keepAliveTimeout := true }

/-- When the current status rank is at least 400 (`freeing` or
beyond), `free(true)` throws at its `freeing` transition before the
remote delete: the state is unchanged and the only possible effect is
the cancellation of a pending keep-alive delay. -/
theorem free_ignoreStatus_stale (s : LockState) (d : Bool) (c : Nat)
    (hc : s.currentStatus = some c) (h400 : 400 ≤ c) :
    free s true d =
      (s, some "Cannot set status: the current status is lower or equal to the status to be set!",
       if s.keepAliveTimeout then [Action.cancelDelay] else []) := by
  unfold free
  rw [if_neg (by simp : ¬(true = false ∧ s.currentStatusName ≠ some "acquired"))]
  rw [setStatus_some_eq s "freeing" 400 c rfl hc, if_pos h400]

/-- Claim C4 (code defect): when a truthy lock id arrives while the
handle status has moved past `acquired` (any map rank above 300), the
loop calls `free(true)`, but `free(true)` still performs the `freeing`
transition, whose rank guard throws for every such rank; consequently
the remote delete is never issued (the effect trace contains no delete
request), the handle state is unchanged (the lock id is not recorded),
and the error propagates, so no success is reported. -/
theorem c4_free_after_cancel_never_deletes
    (s : LockState) (c : Nat) (v : JSValue) (t : Nat) (e : IterEnv)
    (rest : List IterEnv)
    (hc : s.currentStatus = some c)
    (hmem : c ∈ lockStatusMap.map Prod.snd)
    (h300 : 300 < c)
    (hout : e.outcome = TryOutcome.granted v)
    (hv : truthy v = true)
    (hdl : t + s.timeout * 1000 > e.now) :
    (lockLoop t s (e :: rest)).2.1.isSome = true ∧
    (lockLoop t s (e :: rest)).1 = s ∧
    (lockLoop t s (e :: rest)).2.2.filter isRemoteDelete = [] := by
  have h400 : 400 ≤ c := by
    have hm : lockStatusMap.map Prod.snd =
        [100, 200, 300, 400, 500, 850, 900, 999] := rfl
    rw [hm] at hmem
    simp only [List.mem_cons, List.not_mem_nil, or_false] at hmem
    omega
  have hfree := free_ignoreStatus_stale s e.deleteOk c hc h400
  unfold lockLoop
  rw [if_pos hdl]
  unfold tryToLock
  rw [hout]
  dsimp only
  rw [if_pos hv]
  rw [hc]
  dsimp only [Option.getD]
  rw [if_pos h300]
  rw [hfree]
  cases hka : s.keepAliveTimeout <;>
    simp [hka, isRemoteDelete, List.filter]

/-- Witness for C4 at a concrete input: a handle in `freed` receiving a
just-granted lock id ends with an error, an unchanged state, and no
remote delete in its effect trace. -/
theorem c4_free_after_cancel_never_deletes_witness :
    staleState.currentStatus = some 500 ∧
    ((lockLoop 0 staleState
        [⟨0, TryOutcome.granted (JSValue.str "id77"), true⟩]).2.1.isSome = true ∧
     (lockLoop 0 staleState
        [⟨0, TryOutcome.granted (JSValue.str "id77"), true⟩]).1 = staleState ∧
     (lockLoop 0 staleState
        [⟨0, TryOutcome.granted (JSValue.str "id77"), true⟩]).2.2.filter
        isRemoteDelete = []) :=
  ⟨rfl,
   c4_free_after_cancel_never_deletes staleState 500 (JSValue.str "id77") 0
     ⟨0, TryOutcome.granted (JSValue.str "id77"), true⟩ [] rfl (by decide)
     (by omega) rfl rfl (by decide)⟩

end RdaLockClient
